import Mathlib

/-!
# Verification of the alchemy-discord-bot webhook pipeline

A shallow embedding of `src/app.py`: the Python values and library calls the
program relies on are modelled explicitly (string truthiness, `dict.get`,
`bytes.fromhex`, UTF-8 decoding with `errors='replace'`, `int(...)` parsing,
`datetime.fromtimestamp(..., timezone.utc)` formatting, and the specific
regular expression used for title extraction), and the program's functions
are translated one-to-one.  Exceptions raised and caught inside the Python
code are modelled with `Except PyErr`.  Character-level operations are
modelled at the ASCII level (all string constants in the program are ASCII).
-/

set_option autoImplicit false

/-- The Python exception classes that the program can raise or catch. -/
inductive PyErr where
  | keyError
  | valueError
  | typeError
  | attributeError
  | badRequest
  deriving DecidableEq, Repr

/-- A Python scalar value as it appears in a decoded JSON webhook payload:
a string, an integer, or `None`. -/
inductive PyVal where
  | vStr (s : String)
  | vInt (n : Int)
  | vNull
  deriving DecidableEq, Repr

/-- Python truthiness of a scalar: empty string, `0` and `None` are falsy. -/
def pyTruthy : PyVal → Bool
  | .vStr s => s ≠ ""
  | .vInt n => n ≠ 0
  | .vNull => false

/-- Python `str(...)` of a scalar (`str(None) = "None"`). -/
def pyStr : PyVal → String
  | .vStr s => s
  | .vInt n => toString n
  | .vNull => "None"

/-- Python `==` between a scalar and a string literal (values of other
types never compare equal to a `str`). -/
def pyEqStr (v : PyVal) (s : String) : Bool :=
  match v with
  | .vStr t => t = s
  | _ => false

/-- ASCII whitespace recognized by Python's `str.strip()` and the regex
class `\s` (the program only ever meets ASCII data here). -/
def isPySpaceB (c : Char) : Bool :=
  c = ' ' || c = '\t' || c = '\n' || c = '\r' || c = Char.ofNat 11 || c = Char.ofNat 12

/-- Strip leading and trailing whitespace from a character list. -/
def stripList (l : List Char) : List Char :=
  ((l.dropWhile isPySpaceB).reverse.dropWhile isPySpaceB).reverse

/-- Python `str.strip()`. -/
def pyStrip (s : String) : String :=
  String.mk (stripList s.toList)

/-- Python `str.replace('\u0000', '')`: delete every NUL character. -/
def removeNul (s : String) : String :=
  String.mk (s.toList.filter (fun c => c ≠ Char.ofNat 0))

/-- Python slicing `s[:n]` on a string (counted in code points). -/
def strTake (s : String) (n : Nat) : String :=
  String.mk (s.toList.take n)

/-- Python `str.upper()` (ASCII). -/
def pyUpper (s : String) : String :=
  String.mk (s.toList.map Char.toUpper)

/-- `listStarts pat l` is true when `pat` is an initial segment of `l`. -/
def listStarts : List Char → List Char → Bool
  | [], _ => true
  | _ :: _, [] => false
  | a :: as, b :: bs => a = b && listStarts as bs

/-- Case-insensitive (ASCII) initial-segment test, used to model regex
matching of literal text under `re.IGNORECASE`. -/
def listStartsCI : List Char → List Char → Bool
  | [], _ => true
  | _ :: _, [] => false
  | a :: as, b :: bs => a.toLower = b.toLower && listStartsCI as bs

/-- `listContains needle hay`: Python's substring operator `in`. -/
def listContains (needle : List Char) : List Char → Bool
  | [] => listStarts needle []
  | b :: bs => listStarts needle (b :: bs) || listContains needle bs

/-- Python `needle in hay` for strings. -/
def strContains (hay needle : String) : Bool :=
  listContains needle.toList hay.toList

/-- Value of one hexadecimal digit character, if it is one. -/
def hexDigitVal (c : Char) : Option Nat :=
  if '0' ≤ c ∧ c ≤ '9' then some (c.toNat - '0'.toNat)
  else if 'a' ≤ c ∧ c ≤ 'f' then some (c.toNat - 'a'.toNat + 10)
  else if 'A' ≤ c ∧ c ≤ 'F' then some (c.toNat - 'A'.toNat + 10)
  else none

/-- Python `bytes.fromhex`: pairs of hex digits, spaces permitted between
pairs; anything else raises `ValueError` (here: `none`). -/
def hexPairs : List Char → Option (List Nat)
  | [] => some []
  | c :: rest =>
    if c = ' ' then hexPairs rest
    else
      match rest with
      | [] => none
      | d :: rest2 =>
        match hexDigitVal c, hexDigitVal d with
        | some h, some l =>
          match hexPairs rest2 with
          | some bs => some ((h * 16 + l) :: bs)
          | none => none
        | _, _ => none

/-- UTF-8 encoding of one Unicode scalar value. -/
def encodeChar (v : Nat) : List Nat :=
  if v < 0x80 then [v]
  else if v < 0x800 then [0xC0 + v / 64, 0x80 + v % 64]
  else if v < 0x10000 then [0xE0 + v / 4096, 0x80 + v / 64 % 64, 0x80 + v % 64]
  else [0xF0 + v / 262144, 0x80 + v / 4096 % 64, 0x80 + v / 64 % 64, 0x80 + v % 64]

/-- UTF-8 encoding of a character list. -/
def encodeList : List Char → List Nat
  | [] => []
  | c :: cs => encodeChar c.toNat ++ encodeList cs

/-- UTF-8 encoding of a string (Python `str.encode('utf-8')`). -/
def utf8Encode (s : String) : List Nat :=
  encodeList s.toList

/-- One step of the UTF-8 decoder with `errors='replace'`: reads the bytes
of one scalar value, or consumes the maximal subpart of an ill-formed
sequence and yields U+FFFD. -/
def decodeStep (b : Nat) (rest : List Nat) : Nat × List Nat :=
  if b < 0x80 then (b, rest)
  else if 0xC2 ≤ b ∧ b ≤ 0xDF then
    match rest with
    | [] => (0xFFFD, [])
    | n1 :: r2 =>
      if 0x80 ≤ n1 ∧ n1 ≤ 0xBF then ((b - 0xC0) * 64 + (n1 - 0x80), r2)
      else (0xFFFD, n1 :: r2)
  else if 0xE0 ≤ b ∧ b ≤ 0xEF then
    match rest with
    | [] => (0xFFFD, [])
    | n1 :: r2 =>
      if (b = 0xE0 ∧ 0xA0 ≤ n1 ∧ n1 ≤ 0xBF) ∨ (b = 0xED ∧ 0x80 ≤ n1 ∧ n1 ≤ 0x9F)
          ∨ (b ≠ 0xE0 ∧ b ≠ 0xED ∧ 0x80 ≤ n1 ∧ n1 ≤ 0xBF) then
        match r2 with
        | [] => (0xFFFD, [])
        | n2 :: r3 =>
          if 0x80 ≤ n2 ∧ n2 ≤ 0xBF then
            ((b - 0xE0) * 4096 + (n1 - 0x80) * 64 + (n2 - 0x80), r3)
          else (0xFFFD, n2 :: r3)
      else (0xFFFD, n1 :: r2)
  else if 0xF0 ≤ b ∧ b ≤ 0xF4 then
    match rest with
    | [] => (0xFFFD, [])
    | n1 :: r2 =>
      if (b = 0xF0 ∧ 0x90 ≤ n1 ∧ n1 ≤ 0xBF) ∨ (b = 0xF4 ∧ 0x80 ≤ n1 ∧ n1 ≤ 0x8F)
          ∨ (b ≠ 0xF0 ∧ b ≠ 0xF4 ∧ 0x80 ≤ n1 ∧ n1 ≤ 0xBF) then
        match r2 with
        | [] => (0xFFFD, [])
        | n2 :: r3 =>
          if 0x80 ≤ n2 ∧ n2 ≤ 0xBF then
            match r3 with
            | [] => (0xFFFD, [])
            | n3 :: r4 =>
              if 0x80 ≤ n3 ∧ n3 ≤ 0xBF then
                ((b - 0xF0) * 262144 + (n1 - 0x80) * 4096 + (n2 - 0x80) * 64 + (n3 - 0x80), r4)
              else (0xFFFD, n3 :: r4)
          else (0xFFFD, n2 :: r3)
      else (0xFFFD, n1 :: r2)
  else (0xFFFD, rest)

/-- The scalar values produced by decoding a byte list as UTF-8 with
`errors='replace'`. -/
def utf8Run : List Nat → List Nat
  | [] => []
  | b :: rest => (decodeStep b rest).1 :: utf8Run (decodeStep b rest).2
termination_by l => l.length
decreasing_by
  simp only [List.length_cons]
  refine Nat.lt_succ_of_le ?_
  unfold decodeStep
  repeat' split
  all_goals simp_all
  all_goals omega

/-- Python `bytes.decode('utf-8', errors='replace')`. -/
def utf8DecodeReplace (l : List Nat) : String :=
  String.mk ((utf8Run l).map Char.ofNat)

/-- `hex_to_string` from `app.py`: strip a `0x` prefix, `bytes.fromhex`,
then decode as UTF-8 with replacement; `None` when `fromhex` raises. -/
def hex_to_string (hexStr : String) : Option String :=
  match hexPairs (if listStarts ['0', 'x'] hexStr.toList
      then hexStr.toList.drop 2 else hexStr.toList) with
  | none => none
  | some bytes => some (utf8DecodeReplace bytes)

/-- The token `title:` of the extraction regex. -/
def titleTok : List Char := "title:".toList

/-- The literal `description:` of the regex alternative `,\s*description:`. -/
def descTok : List Char := "description:".toList

/-- The literal regex alternative `, desc:`. -/
def commaDescTok : List Char := ", desc:".toList

/-- The literal regex alternative `resolution_criteria:`. -/
def resTok : List Char := "resolution_criteria:".toList

/-- Whether one of the terminating alternatives of the regex
`(?:,\s*description:|, desc:|resolution_criteria:|\n|$)` matches at the
head of the remaining text (the empty list is end of string). -/
def isDelim : List Char → Bool
  | [] => true
  | c :: rest =>
    c = '\n'
    || (c = ',' && listStartsCI descTok (rest.dropWhile isPySpaceB))
    || listStartsCI commaDescTok (c :: rest)
    || listStartsCI resTok (c :: rest)

/-- The lazy group `(.*?)` of the regex: characters up to the first
position where a terminating alternative matches. -/
def takeUntilDelim : List Char → List Char
  | [] => []
  | c :: rest => if isDelim (c :: rest) then [] else c :: takeUntilDelim rest

/-- `re.search(r"title:\s*(.*?)(?:,\s*description:|, desc:|resolution_criteria:|\n|$)",
s, re.IGNORECASE | re.DOTALL)` followed by `.group(1)`: find the leftmost
case-insensitive occurrence of `title:`, greedily skip whitespace, and take
the lazily-matched group.  (Once `title:` occurs a match always exists,
because `$` terminates the group at the end of the string.) -/
def findTitle : List Char → Option (List Char)
  | [] => none
  | c :: rest =>
    if listStartsCI titleTok (c :: rest) then
      some (takeUntilDelim (((c :: rest).drop 6).dropWhile isPySpaceB))
    else findTitle rest

/-- The cleanup applied to the matched group in
`extract_title_from_ancillary`: `strip()`, remove NULs, `strip()`. -/
def cleanTitle (raw : List Char) : String :=
  pyStrip (removeNul (pyStrip (String.mk raw)))

/-- `extract_title_from_ancillary` from `app.py`. -/
def extract_title_from_ancillary (s : String) : Option String :=
  if s = "" then none
  else
    match findTitle s.toList with
    | none => none
    | some raw =>
      let title := cleanTitle raw
      some (if 250 < title.length then strTake title 250 ++ "..." else title)

/-- The cleaned group value of the regex match, before length truncation
(used to state properties of the cleanup pipeline). -/
def titleCleanedValue (s : String) : Option String :=
  if s = "" then none
  else (findTitle s.toList).map cleanTitle

/-- Modelled from the claim's words (for comparison with the code): the
delimiters are taken literally as `, description:` (with exactly one
space), `, desc:`, `resolution_criteria:`, a newline, or end of string. -/
def isDelimClaim : List Char → Bool
  | [] => true
  | c :: rest =>
    c = '\n'
    || listStartsCI ", description:".toList (c :: rest)
    || listStartsCI commaDescTok (c :: rest)
    || listStartsCI resTok (c :: rest)

/-- Group capture under the claim's literal reading of the delimiters. -/
def takeUntilDelimClaim : List Char → List Char
  | [] => []
  | c :: rest => if isDelimClaim (c :: rest) then [] else c :: takeUntilDelimClaim rest

/-- Leftmost `title:` search under the claim's literal delimiter list. -/
def findTitleClaim : List Char → Option (List Char)
  | [] => none
  | c :: rest =>
    if listStartsCI titleTok (c :: rest) then
      some (takeUntilDelimClaim (((c :: rest).drop 6).dropWhile isPySpaceB))
    else findTitleClaim rest

/-- Title extraction as the claim words it, for comparison with
`extract_title_from_ancillary`. -/
def extract_title_claim (s : String) : Option String :=
  if s = "" then none
  else
    match findTitleClaim s.toList with
    | none => none
    | some raw =>
      let title := cleanTitle raw
      some (if 250 < title.length then strTake title 250 ++ "..." else title)

/-- One decimal digit. -/
def decDigitVal (c : Char) : Option Nat :=
  if '0' ≤ c ∧ c ≤ '9' then some (c.toNat - '0'.toNat) else none

/-- Fold a digit list into a number given the value of each digit. -/
def digitsToNat (dv : Char → Option Nat) (base : Nat) : List Char → Option Nat
  | [] => none
  | [c] => dv c
  | c :: rest =>
    match dv c, digitsToNat dv base rest with
    | some d, some n => some (d * base ^ rest.length + n)
    | _, _ => none

/-- Python `int(s)`: optional surrounding whitespace, optional sign, then
one or more decimal digits; otherwise `ValueError`. -/
def pyIntOfStr (s : String) : Except PyErr Int :=
  match stripList s.toList with
  | '+' :: ds =>
    match digitsToNat decDigitVal 10 ds with
    | some n => .ok (n : Int)
    | none => .error .valueError
  | '-' :: ds =>
    match digitsToNat decDigitVal 10 ds with
    | some n => .ok (-(n : Int))
    | none => .error .valueError
  | ds =>
    match digitsToNat decDigitVal 10 ds with
    | some n => .ok (n : Int)
    | none => .error .valueError

/-- Python `int(v)` on a scalar: ints pass through, strings are parsed,
`None` raises `TypeError`. -/
def pyIntOfVal : PyVal → Except PyErr Int
  | .vInt n => .ok n
  | .vStr s => pyIntOfStr s
  | .vNull => .error .typeError

/-- Python `int(s, 16)`: optional whitespace, optional sign, optional
`0x`/`0X` prefix, then one or more hex digits; otherwise `ValueError`. -/
def pyIntBase16 (s : String) : Except PyErr Int :=
  let core := fun (ds : List Char) =>
    let ds2 := match ds with
      | '0' :: 'x' :: rest => rest
      | '0' :: 'X' :: rest => rest
      | rest => rest
    digitsToNat hexDigitVal 16 ds2
  match stripList s.toList with
  | '+' :: ds =>
    match core ds with
    | some n => .ok (n : Int)
    | none => .error .valueError
  | '-' :: ds =>
    match core ds with
    | some n => .ok (-(n : Int))
    | none => .error .valueError
  | ds =>
    match core ds with
    | some n => .ok (n : Int)
    | none => .error .valueError

/-- Zero-pad a number to two digits. -/
def pad2 (n : Nat) : String :=
  if n < 10 then "0" ++ toString n else toString n

/-- Zero-pad a number to four digits. -/
def pad4 (n : Nat) : String :=
  if n < 10 then "000" ++ toString n
  else if n < 100 then "00" ++ toString n
  else if n < 1000 then "0" ++ toString n
  else toString n

/-- Days-to-civil-date conversion for the proleptic Gregorian calendar
(the arithmetic performed by `datetime.fromtimestamp` for a UTC zone). -/
def civilFromDays (z0 : Int) : Int × Nat × Nat :=
  let z : Int := z0 + 719468
  let era : Int := Int.fdiv z 146097
  let doe : Nat := (z - era * 146097).toNat
  let yoe : Nat := (doe - doe / 1460 + doe / 36524 - doe / 146096) / 365
  let doy : Nat := doe - (365 * yoe + yoe / 4 - yoe / 100)
  let mp : Nat := (5 * doy + 2) / 153
  let d : Nat := doy - (153 * mp + 2) / 5 + 1
  let m : Nat := if mp < 10 then mp + 3 else mp - 9
  let y : Int := era * 400 + yoe
  (if m ≤ 2 then y + 1 else y, m, d)

/-- `datetime.fromtimestamp(ts, timezone.utc).strftime('%Y-%m-%d %H:%M:%S %Z')`:
renders the timestamp as a UTC date-time string; dates outside Python's
supported year range 1..9999 raise `ValueError`. -/
def fromtimestampUtc (ts : Int) : Except PyErr String :=
  let days : Int := Int.fdiv ts 86400
  let sod : Nat := (ts - days * 86400).toNat
  match civilFromDays days with
  | (y, m, d) =>
    if y < 1 ∨ 9999 < y then .error .valueError
    else .ok (pad4 y.toNat ++ "-" ++ pad2 m ++ "-" ++ pad2 d ++ " "
      ++ pad2 (sod / 3600) ++ ":" ++ pad2 (sod % 3600 / 60) ++ ":" ++ pad2 (sod % 60)
      ++ " UTC")

/-- One `{name, value}` entry of `decoded.params`; either key can be
missing, in which case subscripting it raises `KeyError`. -/
structure ParamEntry where
  name : Option String
  value : Option PyVal
  deriving DecidableEq, Repr

/-- The `decoded` object of a log entry: event `name` and `params`. -/
structure DecodedEvent where
  name : Option String
  params : Option (List ParamEntry)
  deriving DecidableEq, Repr

/-- The `log` object of an activity item. -/
structure LogData where
  decoded : Option DecodedEvent
  deriving DecidableEq, Repr

/-- One entry of `event.activity`. -/
structure ActivityItem where
  hash : Option String
  blockNum : Option String
  log : Option LogData
  deriving DecidableEq, Repr

/-- The `event` object of an inbound payload. -/
structure EventObj where
  network : Option String
  activity : Option (List ActivityItem)
  deriving DecidableEq, Repr

/-- An inbound webhook payload (the fields the program consumes). -/
structure Payload where
  event : Option EventObj
  createdAt : Option String
  deriving DecidableEq, Repr

/-- The dict comprehension `{p["name"]: p["value"] for p in params}`:
raises `KeyError` when an entry lacks either key. -/
def buildParamMap : List ParamEntry → Except PyErr (List (String × PyVal))
  | [] => .ok []
  | pe :: rest =>
    match pe.name, pe.value with
    | some n, some v =>
      match buildParamMap rest with
      | .ok m => .ok ((n, v) :: m)
      | .error e => .error e
    | _, _ => .error .keyError

/-- Python dict lookup on the built map: last write wins on duplicate
parameter names. -/
def dGet (m : List (String × PyVal)) (key : String) : Option PyVal :=
  match m with
  | [] => none
  | (k, v) :: rest =>
    match dGet rest key with
    | some r => some r
    | none => if k = key then some v else none

/-- Python `dict.get(key, default)`. -/
def dGetD (m : List (String × PyVal)) (key : String) (dflt : PyVal) : PyVal :=
  (dGet m key).getD dflt

/-- A structured Discord embed as assembled by the program. -/
structure Embed where
  title : String
  description : String
  color : Nat
  fields : List (String × String × Bool)
  footer : String
  timestamp : Option String
  deriving DecidableEq, Repr

/-- Look up the value of a named field of an embed. -/
def embedField (e : Embed) (name : String) : Option String :=
  (e.fields.find? (fun f => f.1 = name)).map (fun f => f.2.1)

/-- One dispatch attempt to the Discord notifier: either a prepared embed
for a matched event, or the pass-through message for an unexpected
payload shape. -/
inductive Sent where
  | notif (e : Embed)
  | passThrough
  deriving DecidableEq, Repr

/-- Lines 93–105 of `app.py`: resolve the human-readable title from the
`ancillaryData` hex value, degrading to `"N/A"` when the data is absent,
`"0x"`, undecodable, or contains no title; calling `hex_to_string` on a
non-string value raises `AttributeError` (uncaught). -/
def titleFromAnc (anc : PyVal) : Except PyErr String :=
  if pyTruthy anc ∧ ¬ pyEqStr anc "0x" then
    match anc with
    | .vStr s =>
      .ok (match hex_to_string s with
        | some txt =>
          if txt ≠ "" then
            match extract_title_from_ancillary txt with
            | some t => if t ≠ "" then t else "N/A"
            | none => "N/A"
          else "N/A"
        | none => "N/A")
    | _ => .error .attributeError
  else .ok "N/A"

/-- Line 124 of `app.py`: `int(block_num_hex, 16) if block_num_hex else "N/A"`,
rendered for the footer; a malformed hex string raises `ValueError`
(uncaught). -/
def blockNumField (bn : Option String) : Except PyErr String :=
  match bn with
  | none => .ok "N/A"
  | some s =>
    if s = "" then .ok "N/A"
    else
      match pyIntBase16 s with
      | .ok n => .ok (toString n)
      | .error e => .error e

/-- Lines 131–137 of `app.py`: render the event timestamp only when the
parameter value is truthy; `ValueError`/`TypeError` from the conversion
are caught and leave `"N/A"`. -/
def renderTimestamp (tsv : Option PyVal) : String :=
  match tsv with
  | none => "N/A"
  | some v =>
    if pyTruthy v then
      match pyIntOfVal v with
      | .error _ => "N/A"
      | .ok n =>
        match fromtimestampUtc n with
        | .error _ => "N/A"
        | .ok s => s
    else "N/A"

/-- Lines 107–115 of `app.py`: outcome-code normalization of
`event_params.get("proposedPrice")` by exact string comparison of
`str(raw_proposed_price)`. -/
def normalize_outcome (raw : Option PyVal) : String :=
  let s := match raw with
    | none => "None"
    | some v => pyStr v
  if s = "0" then "p1 (e.g., NO)"
  else if s = "1000000000000000000" then "p2 (e.g., YES)"
  else if s = "500000000000000000" then "p3 (e.g., 0.5/INVALID)"
  else s

/-- Lines 90–155 of `app.py`: given the built parameter map of a matched
`DisputePrice` event, extract and normalize every field and assemble the
embed.  The two uncaught exception sources are surfaced in the
`Except`: `AttributeError` from `hex_to_string` on a non-string
`ancillaryData`, and `ValueError` from the block-number parse. -/
def buildEmbedFromParams (p : Payload) (item : ActivityItem)
    (m : List (String × PyVal)) : Except PyErr Embed :=
  match titleFromAnc (dGetD m "ancillaryData" (.vStr "")) with
  | .error e => .error e
  | .ok human =>
    match blockNumField item.blockNum with
    | .error e => .error e
    | .ok bn =>
      let market := dGetD m "identifier" (.vStr "N/A")
      let disputed := normalize_outcome (dGet m "proposedPrice")
      let disputer := dGetD m "disputer" (.vStr "N/A")
      let requester := dGetD m "requester" (.vStr "N/A")
      let proposer := dGetD m "proposer" (.vStr "N/A")
      let tx := item.hash.getD "N/A"
      let network := pyUpper ((p.event.bind (fun ev => ev.network)).getD "ETH_MAINNET")
      let base := if strContains network "POLYGON" || strContains network "MATIC"
        then "https://polygonscan.com" else "https://etherscan.io"
      let txLink := if tx ≠ "N/A" then base ++ "/tx/" ++ tx else "N/A"
      let disputerLink := if ¬ pyEqStr disputer "N/A"
        then base ++ "/address/" ++ pyStr disputer else "N/A"
      let eventTime := renderTimestamp (dGet m "timestamp")
      let displayTitle := if human ≠ "N/A" then human
        else "Market Identifier: `" ++ pyStr market ++ "`"
      .ok {
        title := "❌ Price Disputed ❌"
        description := "**Title/Market:** " ++ displayTitle ++ "\n"
        color := 0xFF0000
        fields := [
          ("Disputed Outcome", disputed, true),
          ("Disputer", "[" ++ pyStr disputer ++ "](" ++ disputerLink ++ ")", true),
          ("Requester", pyStr requester, true),
          ("Proposer", pyStr proposer, true),
          ("Event Timestamp", eventTime, false),
          ("Transaction", "[" ++ strTake tx 12 ++ "...](" ++ txLink ++ ")", false)]
        footer := "Block: " ++ bn ++ " | Network: " ++ network
        timestamp := p.createdAt }

/-- Lines 78–160 of `app.py`: process one activity item.  `.ok none` when
the item is skipped (no decodable log or a different event name),
`.ok (some e)` when an embed is prepared and dispatched, `.error` when an
uncaught exception is raised while handling the item. -/
def processItem (p : Payload) (item : ActivityItem) : Except PyErr (Option Embed) :=
  match item.log with
  | none => .ok none
  | some ld =>
    match ld.decoded with
    | none => .ok none
    | some dec =>
      if dec.name = some "DisputePrice" then
        match buildParamMap (dec.params.getD []) with
        | .error e => .error e
        | .ok m =>
          match buildEmbedFromParams p item m with
          | .error e => .error e
          | .ok emb => .ok (some emb)
      else .ok none

/-- The `for activity_item in payload["event"]["activity"]` loop: dispatch
attempts accumulate in order; an uncaught exception from one item stops
the loop, so later siblings are not processed. -/
def runActivities (p : Payload) : List ActivityItem → List Sent × Option PyErr
  | [] => ([], none)
  | item :: rest =>
    match processItem p item with
    | .error e => ([], some e)
    | .ok none => runActivities p rest
    | .ok (some emb) =>
      match runActivities p rest with
      | (l, err) => (.notif emb :: l, err)

/-- The body of the `try:` block of `process_webhook_payload` (lines
76–168): either iterate the activity items, or send the pass-through
message when the payload shape is unexpected (missing `event`, missing
`activity`, or an empty — hence falsy — activity list).  Returns the
dispatch attempts made and the uncaught exception, if one was raised. -/
def processBody (p : Payload) : List Sent × Option PyErr :=
  match p.event with
  | some ev =>
    match ev.activity with
    | some acts => if acts ≠ [] then runActivities p acts else ([.passThrough], none)
    | none => ([.passThrough], none)
  | none => ([.passThrough], none)

/-- `process_webhook_payload` from `app.py`: the whole body runs inside
`try: ... except Exception:`, so every exception raised by the body is
swallowed at the task boundary and only the dispatch attempts made before
it remain observable. -/
def process_webhook_payload (p : Payload) : Except PyErr (List Sent) :=
  match processBody p with
  | (sent, _) => .ok sent

/-- Number of dispatch attempts made by a background run. -/
def sentCount : Except PyErr (List Sent) → Nat
  | .ok l => l.length
  | .error _ => 0

/-- The body of an inbound POST request, as seen by `request.json`
(requests carry `Content-Type: application/json`): an empty body, a
syntactically invalid JSON body, a parseable-but-falsy JSON value
(`null`, `{}`, `[]`), or a payload object. -/
inductive RequestBody where
  | emptyBody
  | invalidJson (s : String)
  | jsonFalsy
  | jsonObj (p : Payload)
  deriving DecidableEq, Repr

/-- Flask's `request.json` with a JSON content type: raises `BadRequest`
when the body is empty or not valid JSON, otherwise returns the parsed
value (`none` for a falsy one). -/
def requestJson : RequestBody → Except PyErr (Option Payload)
  | .emptyBody => .error .badRequest
  | .invalidJson _ => .error .badRequest
  | .jsonFalsy => .ok none
  | .jsonObj p => .ok (some p)

/-- `alchemy_webhook_receiver` from `app.py`: returns the HTTP status
code, the JSON `status` field of the response, and whether a background
processing thread was started.  `request.json` raising is caught by the
handler's generic `except` and answered with 500. -/
def alchemy_webhook_receiver (body : RequestBody) : Nat × String × Bool :=
  match requestJson body with
  | .error _ => (500, "error", false)
  | .ok none => (400, "error", false)
  | .ok (some _) => (200, "success", true)

/-- A minimal well-formed `DisputePrice` activity item (its params list is
empty, so every parameter lookup falls back to its default). -/
def goodItem : ActivityItem :=
  { hash := some "0xdeadbeef", blockNum := none,
    log := some { decoded := some { name := some "DisputePrice", params := some [] } } }

/-- A `DisputePrice` item whose params entry lacks its `name` key, so the
dict comprehension raises `KeyError`. -/
def badParamItem : ActivityItem :=
  ⟨some "0xbad", none, some ⟨some ⟨some "DisputePrice", some [⟨none, some (.vStr "x")⟩]⟩⟩⟩

/-- A `DisputePrice` item whose params entry lacks its `value` key. -/
def badValueItem : ActivityItem :=
  ⟨some "0xbad2", none, some ⟨some ⟨some "DisputePrice", some [⟨some "proposedPrice", none⟩]⟩⟩⟩

/-- A `DisputePrice` item whose `blockNum` field is not parseable hex, so
`int(block_num_hex, 16)` raises `ValueError`. -/
def badBlockItem : ActivityItem :=
  { hash := some "0xcafe", blockNum := some "0xzz",
    log := some { decoded := some { name := some "DisputePrice", params := some [] } } }

/-- A payload in which a faulting item precedes a well-formed sibling. -/
def faultThenGoodPayload : Payload :=
  { event := some { network := none, activity := some [badParamItem, goodItem] },
    createdAt := none }

/-- The same well-formed sibling on its own. -/
def goodOnlyPayload : Payload :=
  { event := some { network := none, activity := some [goodItem] }, createdAt := none }

/-- A payload containing only the malformed-`blockNum` item. -/
def badBlockPayload : Payload :=
  { event := some { network := none, activity := some [badBlockItem] }, createdAt := none }

/-- A payload containing only the missing-`value` item. -/
def badValuePayload : Payload :=
  { event := some { network := none, activity := some [badValueItem] }, createdAt := none }

/-- A payload carrying no usable fields at all. -/
def pFix : Payload := { event := none, createdAt := none }

/-- An activity item carrying no usable fields at all. -/
def itemFix : ActivityItem := { hash := none, blockNum := none, log := none }

/-- A parameter map whose only entry is a falsy `timestamp`. -/
def mapTs0 : List (String × PyVal) := [("timestamp", .vInt 0)]

/-- The embed that `buildEmbedFromParams pFix itemFix mapTs0` assembles. -/
def embedFix : Embed :=
  { title := "❌ Price Disputed ❌"
    description := "**Title/Market:** Market Identifier: `N/A`\n"
    color := 0xFF0000
    fields := [
      ("Disputed Outcome", "None", true),
      ("Disputer", "[N/A](N/A)", true),
      ("Requester", "N/A", true),
      ("Proposer", "N/A", true),
      ("Event Timestamp", "N/A", false),
      ("Transaction", "[N/A...](N/A)", false)]
    footer := "Block: N/A | Network: ETH_MAINNET"
    timestamp := none }

theorem utf8Run_nil : utf8Run [] = [] := by
  rw [utf8Run]

theorem utf8Run_cons (b : Nat) (rest : List Nat) :
    utf8Run (b :: rest) = (decodeStep b rest).1 :: utf8Run (decodeStep b rest).2 := by
  rw [utf8Run]

theorem decodeStep_one {b : Nat} (h : b < 0x80) (rest : List Nat) :
    decodeStep b rest = (b, rest) := by
  unfold decodeStep
  rw [if_pos h]

theorem decodeStep_two {b n1 : Nat} (r : List Nat)
    (hb : 0xC2 ≤ b ∧ b ≤ 0xDF) (hn : 0x80 ≤ n1 ∧ n1 ≤ 0xBF) :
    decodeStep b (n1 :: r) = ((b - 0xC0) * 64 + (n1 - 0x80), r) := by
  unfold decodeStep
  rw [if_neg (by omega), if_pos hb]
  simp only [if_pos hn]

theorem decodeStep_three {b n1 n2 : Nat} (r : List Nat)
    (hb : 0xE0 ≤ b ∧ b ≤ 0xEF)
    (hcond : (b = 0xE0 ∧ 0xA0 ≤ n1 ∧ n1 ≤ 0xBF) ∨ (b = 0xED ∧ 0x80 ≤ n1 ∧ n1 ≤ 0x9F)
      ∨ (b ≠ 0xE0 ∧ b ≠ 0xED ∧ 0x80 ≤ n1 ∧ n1 ≤ 0xBF))
    (hn2 : 0x80 ≤ n2 ∧ n2 ≤ 0xBF) :
    decodeStep b (n1 :: n2 :: r) = ((b - 0xE0) * 4096 + (n1 - 0x80) * 64 + (n2 - 0x80), r) := by
  unfold decodeStep
  rw [if_neg (by omega), if_neg (by omega), if_pos hb]
  simp only [if_pos hcond, if_pos hn2]

theorem decodeStep_four {b n1 n2 n3 : Nat} (r : List Nat)
    (hb : 0xF0 ≤ b ∧ b ≤ 0xF4)
    (hcond : (b = 0xF0 ∧ 0x90 ≤ n1 ∧ n1 ≤ 0xBF) ∨ (b = 0xF4 ∧ 0x80 ≤ n1 ∧ n1 ≤ 0x8F)
      ∨ (b ≠ 0xF0 ∧ b ≠ 0xF4 ∧ 0x80 ≤ n1 ∧ n1 ≤ 0xBF))
    (hn2 : 0x80 ≤ n2 ∧ n2 ≤ 0xBF) (hn3 : 0x80 ≤ n3 ∧ n3 ≤ 0xBF) :
    decodeStep b (n1 :: n2 :: n3 :: r)
      = ((b - 0xF0) * 262144 + (n1 - 0x80) * 4096 + (n2 - 0x80) * 64 + (n3 - 0x80), r) := by
  unfold decodeStep
  rw [if_neg (by omega), if_neg (by omega), if_neg (by omega), if_pos hb]
  simp only [if_pos hcond, if_pos hn2, if_pos hn3]

theorem decodeStep_bad {b : Nat} (h : 0xF5 ≤ b) (rest : List Nat) :
    decodeStep b rest = (0xFFFD, rest) := by
  unfold decodeStep
  rw [if_neg (by omega), if_neg (by omega), if_neg (by omega), if_neg (by omega)]

theorem utf8Run_encodeChar (v : Nat)
    (hv : v < 0xD800 ∨ (0xE000 ≤ v ∧ v < 0x110000)) (rest : List Nat) :
    utf8Run (encodeChar v ++ rest) = v :: utf8Run rest := by
  by_cases h1 : v < 0x80
  · have e : encodeChar v = [v] := by unfold encodeChar; rw [if_pos h1]
    rw [e, List.singleton_append, utf8Run_cons, decodeStep_one h1]
  · by_cases h2 : v < 0x800
    · have e : encodeChar v = [0xC0 + v / 64, 0x80 + v % 64] := by
        unfold encodeChar; rw [if_neg h1, if_pos h2]
      rw [e, List.cons_append, List.singleton_append, utf8Run_cons,
        decodeStep_two rest (by omega) (by omega)]
      have hval : (0xC0 + v / 64 - 0xC0) * 64 + (0x80 + v % 64 - 0x80) = v := by omega
      rw [hval]
    · by_cases h3 : v < 0x10000
      · have e : encodeChar v = [0xE0 + v / 4096, 0x80 + v / 64 % 64, 0x80 + v % 64] := by
          unfold encodeChar; rw [if_neg h1, if_neg h2, if_pos h3]
        rw [e, List.cons_append, List.cons_append, List.singleton_append, utf8Run_cons,
          decodeStep_three rest (by omega) (by omega) (by omega)]
        have hval : (0xE0 + v / 4096 - 0xE0) * 4096 + (0x80 + v / 64 % 64 - 0x80) * 64
            + (0x80 + v % 64 - 0x80) = v := by omega
        rw [hval]
      · have e : encodeChar v = [0xF0 + v / 262144, 0x80 + v / 4096 % 64,
            0x80 + v / 64 % 64, 0x80 + v % 64] := by
          unfold encodeChar; rw [if_neg h1, if_neg h2, if_neg h3]
        rw [e, List.cons_append, List.cons_append, List.cons_append, List.singleton_append,
          utf8Run_cons, decodeStep_four rest (by omega) (by omega) (by omega) (by omega)]
        have hval : (0xF0 + v / 262144 - 0xF0) * 262144 + (0x80 + v / 4096 % 64 - 0x80) * 4096
            + (0x80 + v / 64 % 64 - 0x80) * 64 + (0x80 + v % 64 - 0x80) = v := by omega
        rw [hval]

theorem char_valid_scalar (c : Char) :
    c.toNat < 0xD800 ∨ (0xE000 ≤ c.toNat ∧ c.toNat < 0x110000) := by
  have h := c.valid
  unfold UInt32.isValidChar at h
  rcases h with h | ⟨ha, hb⟩
  · left
    have h2 : c.val.toNat < (0xd800 : UInt32).toNat := h
    simpa [Char.toNat] using h2
  · right
    constructor
    · have h2 : (0xdfff : UInt32).toNat < c.val.toNat := ha
      have h3 : (57343 : Nat) < c.toNat := by simpa [Char.toNat] using h2
      omega
    · have h2 : c.val.toNat < (0x110000 : UInt32).toNat := hb
      simpa [Char.toNat] using h2

theorem utf8Run_encodeList (cs : List Char) :
    utf8Run (encodeList cs) = cs.map Char.toNat := by
  induction cs with
  | nil => simpa [encodeList] using utf8Run_nil
  | cons c cs ih =>
    rw [show encodeList (c :: cs) = encodeChar c.toNat ++ encodeList cs from rfl,
      utf8Run_encodeChar c.toNat (char_valid_scalar c), ih, List.map_cons]

theorem utf8_roundtrip (s : String) : utf8DecodeReplace (utf8Encode s) = s := by
  unfold utf8DecodeReplace utf8Encode
  rw [utf8Run_encodeList, List.map_map]
  have h : (Char.ofNat ∘ Char.toNat) = id := by
    funext c
    exact Char.ofNat_toNat c
  rw [h, List.map_id]
  cases s
  rfl

/-- Claim C2, counterexample: an unparseable request body makes
`request.json` raise, which the handler's generic `except` answers with
HTTP 500 — not the 400 the claim states. -/
theorem C2_cex_unparseable_body_gets_500 :
    alchemy_webhook_receiver (RequestBody.invalidJson "not json") = (500, "error", false)
    ∧ (alchemy_webhook_receiver (RequestBody.invalidJson "not json")).1 ≠ 400 := by
  constructor
  · rfl
  · decide

/-- Claim C2, amended: a body that parses to a falsy JSON value gets 400
with a JSON error and no background thread; an empty or unparseable body
makes `request.json` raise `BadRequest`, which the handler's generic
`except` answers with 500 (again without spawning); every payload object
gets 200 with a success status and spawns the background thread, the
response being computed without consulting the background result. -/
theorem C2_intake_gate_statuses :
    alchemy_webhook_receiver RequestBody.emptyBody = (500, "error", false)
    ∧ (∀ s : String, alchemy_webhook_receiver (RequestBody.invalidJson s) = (500, "error", false))
    ∧ alchemy_webhook_receiver RequestBody.jsonFalsy = (400, "error", false)
    ∧ (∀ p : Payload, alchemy_webhook_receiver (RequestBody.jsonObj p) = (200, "success", true)) :=
  ⟨rfl, fun _ => rfl, rfl, fun _ => rfl⟩

/-- Claim C5: outcome-code normalization maps `proposedPrice` by exact
string match — `"0"` to a NO label, `"1000000000000000000"` to a YES
label, `"500000000000000000"` to an INVALID label — and every other
string passes through unmodified. -/
theorem C5_outcome_exact_string_match :
    strContains (normalize_outcome (some (.vStr "0"))) "NO" = true
    ∧ strContains (normalize_outcome (some (.vStr "1000000000000000000"))) "YES" = true
    ∧ strContains (normalize_outcome (some (.vStr "500000000000000000"))) "INVALID" = true
    ∧ normalize_outcome (some (.vStr "777")) = "777"
    ∧ (∀ s : String, s ≠ "0" → s ≠ "1000000000000000000" → s ≠ "500000000000000000" →
        normalize_outcome (some (.vStr s)) = s) := by
  refine ⟨by decide, by decide, by decide, by decide, ?_⟩
  intro s h1 h2 h3
  simp [normalize_outcome, pyStr, h1, h2, h3]

theorem C5_witness : normalize_outcome (some (.vStr "forty-two")) = "forty-two" :=
  C5_outcome_exact_string_match.2.2.2.2 "forty-two" (by decide) (by decide) (by decide)

theorem utf8Run_ab : utf8Run [0x61, 0x62] = [0x61, 0x62] := by
  have e1 : encodeChar 0x61 = [0x61] := by decide
  have e2 : encodeChar 0x62 = [0x62] := by decide
  calc utf8Run [0x61, 0x62]
      = utf8Run (encodeChar 0x61 ++ (encodeChar 0x62 ++ [])) := by rw [e1, e2]; rfl
    _ = 0x61 :: utf8Run (encodeChar 0x62 ++ []) := utf8Run_encodeChar _ (by omega) _
    _ = 0x61 :: 0x62 :: utf8Run [] := by rw [utf8Run_encodeChar _ (by omega)]
    _ = [0x61, 0x62] := by rw [utf8Run_nil]

theorem utf8Run_ff : utf8Run [0xFF] = [0xFFFD] := by
  rw [show ([0xFF] : List Nat) = 0xFF :: [] from rfl, utf8Run_cons, decodeStep_bad (by omega)]
  show (0xFFFD : Nat) :: utf8Run [] = [0xFFFD]
  rw [utf8Run_nil]

/-- Claim C6: decoding valid ancillary hex is lossless for valid UTF-8
(`"0x6162"` decodes to `"ab"`, and decode-after-encode is the identity),
invalid byte sequences decode to U+FFFD instead of failing, and malformed
hex (`"0xag"`) yields an unresolved title without raising. -/
theorem C6_hex_decode_lossless_and_replacing :
    (∀ s : String, utf8DecodeReplace (utf8Encode s) = s)
    ∧ hex_to_string "0x6162" = some "ab"
    ∧ hex_to_string "0xff" = some (String.mk [Char.ofNat 0xFFFD])
    ∧ hex_to_string "0xag" = none
    ∧ titleFromAnc (.vStr "0xag") = .ok "N/A" := by
  refine ⟨utf8_roundtrip, ?_, ?_, by decide, rfl⟩
  · have hp : hexPairs (if listStarts ['0', 'x'] "0x6162".toList
        then "0x6162".toList.drop 2 else "0x6162".toList) = some [0x61, 0x62] := by decide
    unfold hex_to_string
    rw [hp]
    show some (utf8DecodeReplace [0x61, 0x62]) = some "ab"
    unfold utf8DecodeReplace
    rw [utf8Run_ab]
    decide
  · have hp : hexPairs (if listStarts ['0', 'x'] "0xff".toList
        then "0xff".toList.drop 2 else "0xff".toList) = some [0xFF] := by decide
    unfold hex_to_string
    rw [hp]
    show some (utf8DecodeReplace [0xFF]) = some (String.mk [Char.ofNat 0xFFFD])
    unfold utf8DecodeReplace
    rw [utf8Run_ff]
    rfl

theorem C8_task_boundary_catches :
    (∀ p : Payload, (process_webhook_payload p).isOk = true)
    ∧ (processBody faultThenGoodPayload).2 = some PyErr.keyError
    ∧ process_webhook_payload faultThenGoodPayload = .ok [] := by
  refine ⟨fun p => rfl, by decide, rfl⟩

/-- Claim C1, counterexample: in `faultThenGoodPayload` a `KeyError` from
the first item's params aborts the loop, so the well-formed sibling —
which on its own produces one dispatch — produces none. -/
theorem C1_cex_fault_aborts_sibling :
    sentCount (process_webhook_payload faultThenGoodPayload) = 0
    ∧ sentCount (process_webhook_payload goodOnlyPayload) = 1
    ∧ (processBody faultThenGoodPayload).2.isSome = true := by
  refine ⟨by decide, by decide, by decide⟩

/-- Claim C1, amended: an uncaught fault while processing one ActivityItem
is swallowed at the payload-level task boundary (it never escapes
`process_webhook_payload`), but it terminates the whole loop, so the
remaining sibling items of the same payload are not processed and no
dispatch is made for them. -/
theorem C1_fault_caught_but_aborts_siblings :
    ∀ (p : Payload) (ev : EventObj) (item : ActivityItem) (rest : List ActivityItem)
      (err : PyErr),
      p.event = some ev →
      ev.activity = some (item :: rest) →
      processItem p item = .error err →
      process_webhook_payload p = .ok [] ∧ (processBody p).2 = some err := by
  intro p ev item rest err hev hact hitem
  have hbody : processBody p = ([], some err) := by
    unfold processBody runActivities
    simp only [hev, hact, hitem]
    simp
  constructor
  · unfold process_webhook_payload
    rw [hbody]
  · rw [hbody]

theorem C1_witness :
    process_webhook_payload faultThenGoodPayload = .ok []
    ∧ (processBody faultThenGoodPayload).2 = some PyErr.keyError :=
  C1_fault_caught_but_aborts_siblings faultThenGoodPayload
    ⟨none, some [badParamItem, goodItem]⟩ badParamItem [goodItem] PyErr.keyError rfl rfl rfl

/-- Claim C3, counterexample: a malformed `blockNum` raises `ValueError`
and a params entry lacking its `value` key raises `KeyError`; both abort
the item (no placeholder, no dispatch) instead of degrading. -/
theorem C3_cex_uncaught_item_faults :
    sentCount (process_webhook_payload badBlockPayload) = 0
    ∧ (processBody badBlockPayload).2 = some PyErr.valueError
    ∧ sentCount (process_webhook_payload badValuePayload) = 0
    ∧ (processBody badValuePayload).2 = some PyErr.keyError := by
  refine ⟨by decide, by decide, by decide, by decide⟩

/-- Claim C3, amended: a failing ancillary hex decode and a failing
timestamp parse degrade to `"N/A"` and processing continues, and keys
read through defaulting `.get` lookups cannot fault; but a malformed
block-number field raises `ValueError` and a params entry lacking its
`name` key raises `KeyError`, aborting the item (caught only at the task
boundary, so still never surfaced to the HTTP caller). -/
theorem C3_partial_degradation :
    (∀ s : String, hex_to_string s = none → titleFromAnc (.vStr s) = .ok "N/A")
    ∧ (∀ s : String, pyIntOfStr s = .error PyErr.valueError →
        renderTimestamp (some (.vStr s)) = "N/A")
    ∧ (∀ (p : Payload) (item : ActivityItem) (m : List (String × PyVal)) (bs : String),
        item.blockNum = some bs → bs ≠ "" → pyIntBase16 bs = .error PyErr.valueError →
        (titleFromAnc (dGetD m "ancillaryData" (.vStr ""))).isOk = true →
        buildEmbedFromParams p item m = .error PyErr.valueError)
    ∧ (∀ (pe : ParamEntry) (ps : List ParamEntry), pe.name = none →
        buildParamMap (pe :: ps) = .error PyErr.keyError) := by
  refine ⟨?_, ?_, ?_, ?_⟩
  · intro s h
    unfold titleFromAnc
    split
    · simp [h]
    · rfl
  · intro s h
    by_cases hs : s = ""
    · simp [renderTimestamp, pyTruthy, hs]
    · simp [renderTimestamp, pyTruthy, hs, pyIntOfVal, h]
  · intro p item m bs hbn hne hparse htitle
    unfold buildEmbedFromParams
    cases htf : titleFromAnc (dGetD m "ancillaryData" (.vStr "")) with
    | error e1 =>
      rw [htf] at htitle
      simp [Except.isOk, Except.toBool] at htitle
    | ok human =>
      have hb : blockNumField item.blockNum = .error PyErr.valueError := by
        simp [blockNumField, hbn, hne, hparse]
      rw [hb]
  · intro pe ps h
    unfold buildParamMap
    rw [h]

theorem C3_witness : buildEmbedFromParams pFix badBlockItem [] = .error PyErr.valueError :=
  C3_partial_degradation.2.2.1 pFix badBlockItem [] "0xzz" rfl (by decide) rfl (by decide)

/-- Claim C4, counterexample: the regex alternative `,\s*description:`
also matches a comma immediately followed by `description:` (no space),
so on `"title: A,description: x"` the code extracts `"A"`, while the
claim's literal delimiter list (`, description:` with exactly one space)
would let the value run to the end of the string. -/
theorem C4_cex_comma_description_without_space :
    extract_title_from_ancillary "title: A,description: x" = some "A"
    ∧ extract_title_claim "title: A,description: x" = some "A,description: x"
    ∧ extract_title_from_ancillary "title: A,description: x"
        ≠ extract_title_claim "title: A,description: x" := by
  refine ⟨by decide, by decide, by decide⟩

/-- Claim C4, amended: title extraction searches case-insensitively for
`title:`, greedily skips whitespace, and the value runs until the first
position where one of these matches: a comma followed by an arbitrary
(possibly empty) whitespace run and `description:`; the literal
`, desc:`; `resolution_criteria:`; a newline; or end of string.  The
claim's concrete example extracts exactly `"Will X happen?"`. -/
theorem C4_title_regex_amended :
    extract_title_from_ancillary "title: Will X happen?, description: foo"
      = some "Will X happen?"
    ∧ extract_title_from_ancillary "TITLE: x, DESCRIPTION: y" = some "x"
    ∧ (∀ l : List Char,
        takeUntilDelim l = l.take (takeUntilDelim l).length
        ∧ (∀ j : Nat, j < (takeUntilDelim l).length → isDelim (l.drop j) = false)
        ∧ isDelim (l.drop (takeUntilDelim l).length) = true) := by
  refine ⟨by decide, by decide, ?_⟩
  intro l
  induction l with
  | nil =>
    refine ⟨rfl, ?_, rfl⟩
    intro j hj
    simp [takeUntilDelim] at hj
  | cons c rest ih =>
    by_cases h : isDelim (c :: rest) = true
    · refine ⟨?_, ?_, ?_⟩
      · simp [takeUntilDelim, h]
      · intro j hj
        simp [takeUntilDelim, h] at hj
      · simp [takeUntilDelim, h]
    · obtain ⟨ih1, ih2, ih3⟩ := ih
      have hf : isDelim (c :: rest) = false := by
        simpa using h
      have ht : takeUntilDelim (c :: rest) = c :: takeUntilDelim rest := by
        simp [takeUntilDelim, hf]
      refine ⟨?_, ?_, ?_⟩
      · rw [ht, List.length_cons, List.take_succ_cons]
        exact congrArg (List.cons c) ih1
      · intro j hj
        rw [ht, List.length_cons] at hj
        cases j with
        | zero => simpa using hf
        | succ j =>
          have hj2 : j < (takeUntilDelim rest).length := by omega
          simpa [List.drop_succ_cons] using ih2 j hj2
      · rw [ht, List.length_cons, List.drop_succ_cons]
        exact ih3

theorem C4_witness : isDelim (['a', 'b'].drop 1) = false :=
  ((C4_title_regex_amended.2.2 ['a', 'b']).2.1) 1 (by decide)

set_option maxRecDepth 4000 in
/-- Claim C7: an extracted title is the whitespace-stripped,
NUL-cleansed regex group, truncated to exactly its first 250 characters
plus an ellipsis when longer than 250, and left untruncated otherwise —
shown in general against the cleaned group value, and on a concrete
260-character title. -/
theorem C7_title_cleanup :
    (∀ s t, extract_title_from_ancillary s = some t →
      ∀ v, titleCleanedValue s = some v →
        (v.length ≤ 250 → t = v) ∧ (250 < v.length → t = strTake v 250 ++ "..."))
    ∧ extract_title_from_ancillary ("title: " ++ String.mk (List.replicate 260 'a'))
        = some (String.mk (List.replicate 250 'a') ++ "...") := by
  constructor
  · intro s t hex v hv
    unfold extract_title_from_ancillary at hex
    unfold titleCleanedValue at hv
    by_cases hs : s = ""
    · rw [if_pos hs] at hv
      simp at hv
    · rw [if_neg hs] at hex hv
      cases hft : findTitle s.toList with
      | none =>
        rw [hft] at hex
        simp at hex
      | some raw =>
        rw [hft] at hex hv
        simp only [Option.some.injEq] at hex
        have hv2 : cleanTitle raw = v := by simpa using hv
        subst hv2
        constructor
        · intro hle
          rw [← hex, if_neg (by omega)]
        · intro hgt
          rw [← hex, if_pos (by omega)]
  · decide

theorem C7_witness :
    (("hi" : String).length ≤ 250 → ("hi" : String) = "hi")
    ∧ (250 < ("hi" : String).length → ("hi" : String) = strTake "hi" 250 ++ "...") :=
  C7_title_cleanup.1 "title: hi" "hi" rfl "hi" rfl

/-- Claim C9: when the `timestamp` param is present but falsy (`0`, `""`
or `None`), the truthiness guard skips rendering and the Event Timestamp
field is `"N/A"` — even though 0 is a valid unix timestamp and would
render as `1970-01-01 00:00:00 UTC`; the truthy string `"0"` does
render. -/
theorem C9_timestamp_truthiness :
    (∀ (p : Payload) (item : ActivityItem) (m : List (String × PyVal)) (e : Embed)
      (v : PyVal),
      buildEmbedFromParams p item m = .ok e →
      dGet m "timestamp" = some v →
      (v = .vInt 0 ∨ v = .vStr "" ∨ v = .vNull) →
      embedField e "Event Timestamp" = some "N/A")
    ∧ fromtimestampUtc 0 = .ok "1970-01-01 00:00:00 UTC"
    ∧ renderTimestamp (some (.vStr "0")) = "1970-01-01 00:00:00 UTC"
    ∧ renderTimestamp (some (.vInt 0)) = "N/A" := by
  refine ⟨?_, rfl, rfl, rfl⟩
  intro p item m e v hok hts hv
  unfold buildEmbedFromParams at hok
  cases htf : titleFromAnc (dGetD m "ancillaryData" (.vStr "")) with
  | error e1 =>
    rw [htf] at hok
    simp at hok
  | ok human =>
    rw [htf] at hok
    cases hbn : blockNumField item.blockNum with
    | error e2 =>
      rw [hbn] at hok
      simp at hok
    | ok bn =>
      rw [hbn] at hok
      simp only [Except.ok.injEq] at hok
      rw [← hok]
      simp only [embedField, List.find?]
      rw [hts]
      rcases hv with rfl | rfl | rfl <;> rfl

/-- Claim C10: when the params contain no `proposedPrice` entry,
`str(None)` makes the Disputed Outcome field the literal string
`"None"`. -/
theorem C10_missing_proposedPrice_yields_None :
    ∀ (p : Payload) (item : ActivityItem) (m : List (String × PyVal)) (e : Embed),
      buildEmbedFromParams p item m = .ok e →
      dGet m "proposedPrice" = none →
      embedField e "Disputed Outcome" = some "None" := by
  intro p item m e hok hpp
  unfold buildEmbedFromParams at hok
  cases htf : titleFromAnc (dGetD m "ancillaryData" (.vStr "")) with
  | error e1 =>
    rw [htf] at hok
    simp at hok
  | ok human =>
    rw [htf] at hok
    cases hbn : blockNumField item.blockNum with
    | error e2 =>
      rw [hbn] at hok
      simp at hok
    | ok bn =>
      rw [hbn] at hok
      simp only [Except.ok.injEq] at hok
      rw [← hok]
      simp only [embedField, List.find?]
      rw [hpp]
      rfl

theorem C9_witness : embedField embedFix "Event Timestamp" = some "N/A" :=
  C9_timestamp_truthiness.1 pFix itemFix mapTs0 embedFix (.vInt 0) rfl rfl (Or.inl rfl)

theorem C10_witness : embedField embedFix "Disputed Outcome" = some "None" :=
  C10_missing_proposedPrice_yields_None pFix itemFix mapTs0 embedFix rfl rfl
